import Mathlib

/-!
Shallow embedding of the authentication/token-lifecycle core and the HTTP
transport core of a Spotify Web API client library
(src/spotify_sdk/_sync/auth/__init__.py and
src/spotify_sdk/_async/_base_client.py), together with proofs about the
behaviour that the natural-language specification describes.

Modelling conventions:
* Python runtime values flowing out of JSON are modelled by the inductive
  type `PyVal`.  Python `int` and `float` are collapsed into exact
  rationals (`Rat`); IEEE rounding, infinities and NaN are not modelled,
  and no theorem below depends on them.
* `json.loads`/`json.dumps` are modelled as the identity on parsed values:
  a file or response body is represented by the `PyVal` it parses to, with
  a separate marker for unparseable text.
* Raised exceptions are modelled by `Except` with the error type `PyExc`,
  which distinguishes the library's own exception hierarchy (`SpotifyExc`)
  from low-level httpx transport errors and from Python builtin errors
  (`ValueError`, `TypeError`, `AttributeError`) that can escape the code.
* Network, clock and file system are passed explicitly: `time.time()`
  becomes a `now : Rat` argument, an HTTP exchange becomes an
  `HttpResponse` (or attempt-outcome) argument, and a file read becomes a
  `FileReadOutcome` argument.
-/

set_option autoImplicit false

/-- Python runtime value as produced by `json.loads` (plus `None`). -/
inductive PyVal where
  | none
  | bool (b : Bool)
  | num (q : Rat)
  | str (s : String)
  | list (xs : List PyVal)
  | dict (xs : List (String × PyVal))

/-- Python truthiness (`bool(v)`) for the values of `PyVal`. -/
def pyTruthy : PyVal → Bool
  | .none => false
  | .bool b => b
  | .num q => q != 0
  | .str s => s != ""
  | .list xs => !xs.isEmpty
  | .dict xs => !xs.isEmpty

/-- Test for the Python value `None`. -/
def PyVal.isNone : PyVal → Bool
  | .none => true
  | _ => false

/-- Coercion of an optional Lean string into a Python value. -/
def optStrToPy : Option String → PyVal
  | Option.none => PyVal.none
  | Option.some s => PyVal.str s

/-- Python `str.strip()` with no argument: surrounding whitespace
removed (structural implementation over the character list, so that
proofs can evaluate it). -/
def pyStripChars (cs : List Char) : List Char :=
  ((cs.dropWhile Char.isWhitespace).reverse.dropWhile Char.isWhitespace).reverse

/-- Does the second list start with the first? -/
def leadsWith : List Char → List Char → Bool
  | [], _ => true
  | _ :: _, [] => false
  | a :: as, b :: bs => a == b && leadsWith as bs

/-- Substring occurrence test over character lists. -/
def subSearch (needle : List Char) : List Char → Bool
  | [] => leadsWith needle []
  | c :: rest => leadsWith needle (c :: rest) || subSearch needle rest

/-- Split at the first occurrence of a character: `none` when the
character does not occur, otherwise the parts before and after it. -/
def splitFirstChar (sep : Char) : List Char → Option (List Char × List Char)
  | [] => Option.none
  | c :: rest =>
    if c == sep then some ([], rest)
    else
      match splitFirstChar sep rest with
      | some (pre, post) => some (c :: pre, post)
      | Option.none => Option.none

/-- Digit run possibly containing underscores, as accepted inside Python
`int()`/`float()` literals: nonempty, starts and ends with a digit, no two
consecutive underscores, nothing but digits and underscores. -/
def validDigitRunAux : List Char → Bool
  | [] => true
  | '_' :: rest =>
    match rest with
    | c :: rest2 => c.isDigit && validDigitRunAux rest2
    | [] => false
  | c :: rest => c.isDigit && validDigitRunAux rest

/-- Digit run validity check (see `validDigitRunAux`). -/
def validDigitRun : List Char → Bool
  | [] => false
  | c :: rest => c.isDigit && validDigitRunAux rest

/-- Numeric value of a digit run after dropping underscores. -/
def natOfDigitRun (cs : List Char) : Nat :=
  (cs.filter (fun c => c != '_')).foldl (fun n c => 10 * n + (c.toNat - 48)) 0

/-- Number of proper digits in a digit run (underscores dropped). -/
def digitCount (cs : List Char) : Nat :=
  (cs.filter (fun c => c != '_')).length

/-- Python `int(s)` on a string: surrounding whitespace stripped, optional
sign, then a digit run (underscores allowed between digits).  Returns
`none` where Python raises `ValueError`. -/
def pyIntOfString (s : String) : Option Int :=
  match pyStripChars s.toList with
  | '+' :: rest => if validDigitRun rest then some (natOfDigitRun rest : Int) else none
  | '-' :: rest => if validDigitRun rest then some (-(natOfDigitRun rest : Int)) else none
  | rest => if validDigitRun rest then some (natOfDigitRun rest : Int) else none

/-- Mantissa of a Python float literal: `digits`, `digits.`, `digits.digits`
or `.digits`. -/
def parseMantissa (cs : List Char) : Option Rat :=
  match cs.splitOn '.' with
  | [intPart] => if validDigitRun intPart then some (natOfDigitRun intPart : Rat) else none
  | [intPart, fracPart] =>
    if intPart.isEmpty then
      if validDigitRun fracPart then
        some ((natOfDigitRun fracPart : Rat) / (10 : Rat) ^ digitCount fracPart)
      else none
    else if fracPart.isEmpty then
      if validDigitRun intPart then some (natOfDigitRun intPart : Rat) else none
    else
      if validDigitRun intPart && validDigitRun fracPart then
        some ((natOfDigitRun intPart : Rat)
          + (natOfDigitRun fracPart : Rat) / (10 : Rat) ^ digitCount fracPart)
      else none
  | _ => none

/-- Signed exponent of a Python float literal. -/
def parseExponent (cs : List Char) : Option Int :=
  match cs with
  | '+' :: rest => if validDigitRun rest then some (natOfDigitRun rest : Int) else none
  | '-' :: rest => if validDigitRun rest then some (-(natOfDigitRun rest : Int)) else none
  | rest => if validDigitRun rest then some (natOfDigitRun rest : Int) else none

/-- Unsigned part of a Python float literal (mantissa with optional
`e`/`E` exponent). -/
def parseUnsignedFloat (cs : List Char) : Option Rat :=
  match cs.splitOn 'e' with
  | [_m] =>
    match cs.splitOn 'E' with
    | [m2] => parseMantissa m2
    | [m2, e2] =>
      match parseMantissa m2, parseExponent e2 with
      | some q, some n => some (q * (10 : Rat) ^ n)
      | _, _ => none
    | _ => Option.none
  | [m, e] =>
    match parseMantissa m, parseExponent e with
    | some q, some n => some (q * (10 : Rat) ^ n)
    | _, _ => none
  | _ => none

/-- Python `float(s)` on a string: whitespace stripped, optional sign,
decimal mantissa with optional exponent.  The textual forms `inf`,
`infinity` and `nan` are not modelled (no theorem depends on them).
Returns `none` where Python raises `ValueError`. -/
def pyFloatOfString (s : String) : Option Rat :=
  match pyStripChars s.toList with
  | '+' :: rest => parseUnsignedFloat rest
  | '-' :: rest => (parseUnsignedFloat rest).map (fun q => -q)
  | rest => parseUnsignedFloat rest

/-- Python `float(v)` on an arbitrary value: numbers pass through, `bool`
coerces to 0/1, strings are parsed, everything else raises
(`TypeError`), modelled as `none`. -/
def pyFloat : PyVal → Option Rat
  | .num q => some q
  | .bool b => some (if b then 1 else 0)
  | .str s => pyFloatOfString s
  | _ => Option.none

/-- Decimal-ish rendering of a rational for `str()`/`repr()` on numbers.
Python distinguishes `str(1) = "1"` from `str(1.0) = "1.0"`; the model
collapses ints and floats, so this rendering is approximate.  No verified
property depends on it. -/
def ratStr (q : Rat) : String :=
  if q.den = 1 then toString q.num else toString q.num ++ "/" ++ toString q.den

mutual
/-- Python `repr(v)` (approximate: string escaping and numeric formatting
are simplified; no verified property depends on container or numeric
renderings). -/
def pyRepr : PyVal → String
  | .none => "None"
  | .bool true => "True"
  | .bool false => "False"
  | .num q => ratStr q
  | .str s => "'" ++ s ++ "'"
  | .list xs => "[" ++ pyReprList xs ++ "]"
  | .dict xs => "\x7b" ++ pyReprPairs xs ++ "\x7d"

/-- Comma-joined reprs of the elements of a list. -/
def pyReprList : List PyVal → String
  | [] => ""
  | [x] => pyRepr x
  | x :: y :: rest => pyRepr x ++ ", " ++ pyReprList (y :: rest)

/-- Comma-joined reprs of the entries of a dict. -/
def pyReprPairs : List (String × PyVal) → String
  | [] => ""
  | [(k, v)] => "'" ++ k ++ "': " ++ pyRepr v
  | (k, v) :: p :: rest => "'" ++ k ++ "': " ++ pyRepr v ++ ", " ++ pyReprPairs (p :: rest)
end

/-- Python `str(v)`: like `repr` except that a top-level string is returned
unquoted. -/
def pyStr : PyVal → String
  | .str s => s
  | v => pyRepr v

/-- Cached access token with expiry
(dataclass `TokenInfo` in `_sync/auth/__init__.py`).  The dataclass
annotations declare `access_token : str`, `refresh_token : str | None`,
`scope : str | None`, but Python does not enforce them and
`AuthorizationCode._handle_response` stores values taken straight out of
response JSON, so the string-ish fields are modelled as `PyVal`.
`expires_at` is always constructed as a float and is modelled as `Rat`. -/
structure TokenInfo where
  access_token : PyVal
  expires_at : Rat
  refresh_token : PyVal := PyVal.none
  scope : PyVal := PyVal.none

/-- Return `True` if the token is expired or within the skew window
(`TokenInfo.is_expired`): `time.time() >= (self.expires_at - skew_seconds)`,
with the clock passed explicitly as `now`. -/
def TokenInfo.is_expired (t : TokenInfo) (skew_seconds : Int) (now : Rat) : Bool :=
  decide (t.expires_at - (skew_seconds : Rat) ≤ now)

/-- Library exception hierarchy (`spotify_sdk.exceptions`): every class
carries `message`, optional `status_code` and optional `response_body`;
`RateLimitError` additionally carries `retry_after`. -/
inductive SpotifyExc where
  | spotifyError (message : String) (status_code : Option Nat) (response_body : Option PyVal)
  | badRequest (message : String) (status_code : Option Nat) (response_body : Option PyVal)
  | authenticationErr (message : String) (status_code : Option Nat) (response_body : Option PyVal)
  | forbidden (message : String) (status_code : Option Nat) (response_body : Option PyVal)
  | notFound (message : String) (status_code : Option Nat) (response_body : Option PyVal)
  | rateLimit (message : String) (status_code : Option Nat) (response_body : Option PyVal)
      (retry_after : Int)
  | server (message : String) (status_code : Option Nat) (response_body : Option PyVal)

/-- Everything the embedded code can raise: library exceptions, httpx
transport errors, and Python builtin errors that escape uncaught. -/
inductive PyExc where
  | spotify (e : SpotifyExc)
  | httpxConnect
  | httpxTimeout
  | valueError
  | typeError
  | attributeError

/-- True exactly for `AuthenticationError` values. -/
def isAuthenticationError : PyExc → Bool
  | .spotify (.authenticationErr _ _ _) => true
  | _ => false

/-- An HTTP response as the embedded code observes it: status code, the
`Retry-After` header (if present), and the parse result of the body
(`Option.none` means `response.json()` raised, which the code turns into
`{}`). -/
structure HttpResponse where
  status : Nat
  retryAfter : Option String
  body : Option PyVal

/-- httpx `response.is_success`: `200 <= status < 300`. -/
def isSuccessStatus (status : Nat) : Bool :=
  decide (200 ≤ status) && decide (status < 300)

/-- Python `data.get(key)` (default `None`) on a value expected to be a
dict; on any non-dict, attribute lookup of `.get` raises
`AttributeError`. -/
def pyGet (v : PyVal) (key : String) : Except PyExc PyVal :=
  match v with
  | .dict xs => .ok ((xs.lookup key).getD PyVal.none)
  | _ => .error .attributeError

/-- Python `data.get(key, default)` on a value expected to be a dict. -/
def pyGetD (v : PyVal) (key : String) (default : PyVal) : Except PyExc PyVal :=
  match v with
  | .dict xs => .ok ((xs.lookup key).getD default)
  | _ => .error .attributeError

/-- Outcome of `Path.read_text` + `json.loads` in `FileTokenCache.get`:
the file may be missing (`FileNotFoundError`), unreadable (`OSError`),
hold text that is not JSON (`json.JSONDecodeError`), or parse to a JSON
value. -/
inductive FileReadOutcome where
  | missing
  | readError
  | badJson
  | json (payload : PyVal)

/-- Python `v if isinstance(v, str) else None` pattern used for the
optional fields in `FileTokenCache.get`: a present non-string
`refresh_token`/`scope` is individually replaced by `None`. -/
def keepIfStr : PyVal → PyVal
  | .str s => PyVal.str s
  | _ => PyVal.none

/-- `FileTokenCache.get`: read failures and malformed JSON are cache
misses; a JSON-object payload needs a string `access_token` and a
float-coercible `expires_at`, and wrong-typed optional fields are dropped.
A payload that is valid JSON but not an object hits `payload.get` on a
non-dict, which raises `AttributeError` (modelled as `.error`). -/
def FileTokenCache.get (outcome : FileReadOutcome) : Except PyExc (Option TokenInfo) :=
  match outcome with
  | .missing => .ok Option.none
  | .readError => .ok Option.none
  | .badJson => .ok Option.none
  | .json payload =>
    match payload with
    | .dict xs =>
      let access_token := (xs.lookup "access_token").getD PyVal.none
      let expires_at := (xs.lookup "expires_at").getD PyVal.none
      match access_token with
      | .str a =>
        match pyFloat expires_at with
        | some expires_at_value =>
          let refresh_token := keepIfStr ((xs.lookup "refresh_token").getD PyVal.none)
          let scope := keepIfStr ((xs.lookup "scope").getD PyVal.none)
          .ok (some ⟨PyVal.str a, expires_at_value, refresh_token, scope⟩)
        | Option.none => .ok Option.none
      | _ => .ok Option.none
    | _ => .error .attributeError

/-- `FileTokenCache.set`: the JSON object written to disk (the
`json.dumps`/file-write layer is modelled as the identity on the parsed
value). -/
def FileTokenCache.set (token : TokenInfo) : PyVal :=
  PyVal.dict
    [ ("access_token", token.access_token)
    , ("expires_at", PyVal.num token.expires_at)
    , ("refresh_token", token.refresh_token)
    , ("scope", token.scope)
    ]

/-- Substring check (`needle in haystack` for Python strings). -/
def containsSub (haystack needle : String) : Bool :=
  subSearch needle.toList haystack.toList

/-- Module-level `_extract_error_message(data)` of
`_sync/auth/__init__.py`.  `"error" in data` on a non-container raises
`TypeError`; on a list it is membership ((and the subsequent
`data["error"]` string index raises `TypeError`); on a string it is a
substring test with the same subsequent `TypeError`.  For a dict holding
`error: dict`, Python returns `error.get("message", "Unknown error")`
without `str()`; the model renders a non-string message with `pyStr`
(no verified property depends on that rendering). -/
def extractErrorMessageSync (data : PyVal) : Except PyExc String :=
  match data with
  | .dict xs =>
    match xs.lookup "error" with
    | some (.dict ys) => .ok (pyStr ((ys.lookup "message").getD (PyVal.str "Unknown error")))
    | some e => .ok (pyStr e)
    | Option.none => .ok "Unknown error"
  | .list xs =>
    if xs.any (fun v => match v with | .str s => s == "error" | _ => false) then
      .error .typeError
    else .ok "Unknown error"
  | .str s => if containsSub s "error" then .error .typeError else .ok "Unknown error"
  | _ => .error .typeError

/-- `AuthorizationCode._handle_response`: on a 2xx response build a
`TokenInfo` from the body (with `refresh_token` defaulting to the
fallback when, and only when, the key is absent); on an error status map
5xx to `ServerError` and everything else to `AuthenticationError`.
`time.time()` is the explicit `now`, `self._scope` the explicit
`self_scope`. -/
def AuthorizationCode._handle_response (now : Rat) (self_scope : PyVal)
    (response : HttpResponse) (require_refresh_token : Bool)
    (fallback_refresh_token : PyVal) : Except PyExc TokenInfo :=
  let data := response.body.getD (PyVal.dict [])
  if isSuccessStatus response.status then
    match pyGet data "access_token" with
    | .error e => .error e
    | .ok access_token =>
      match pyGet data "expires_in" with
      | .error e => .error e
      | .ok expires_in =>
        match pyGetD data "refresh_token" fallback_refresh_token with
        | .error e => .error e
        | .ok refresh_token =>
          if access_token.isNone || expires_in.isNone then
            .error (.spotify (.authenticationErr
              "Token response missing access_token or expires_in."
              (some response.status) (some data)))
          else if require_refresh_token && refresh_token.isNone then
            .error (.spotify (.authenticationErr
              "Token response missing refresh_token."
              (some response.status) (some data)))
          else
            match pyFloat expires_in with
            | Option.none =>
              .error (.spotify (.authenticationErr
                "Token response has invalid expires_in."
                (some response.status) (some data)))
            | some expires_in_seconds =>
              match pyGetD data "scope" self_scope with
              | .error e => .error e
              | .ok scope =>
                .ok ⟨access_token, now + expires_in_seconds, refresh_token, scope⟩
  else
    match extractErrorMessageSync data with
    | .error e => .error e
    | .ok error_message =>
      if response.status != 0 && decide (500 ≤ response.status) then
        .error (.spotify (.server error_message (some response.status) (some data)))
      else
        .error (.spotify (.authenticationErr error_message (some response.status) (some data)))

/-- `AuthorizationCode._refresh_access_token`: a refresh is a token fetch
with `grant_type=refresh_token`, `require_refresh_token=False` and the
refresh token being used as the fallback.  The network POST is modelled
by passing the token endpoint's response explicitly. -/
def AuthorizationCode._refresh_access_token (now : Rat) (self_scope : PyVal)
    (refresh_token : String) (response : HttpResponse) : Except PyExc TokenInfo :=
  AuthorizationCode._handle_response now self_scope response false (PyVal.str refresh_token)

/-- Mutable state of an `AuthorizationCode` provider relevant to the token
lifecycle: the token cache contents and the `self._refresh_token`
attribute. -/
structure ACState where
  cache : Option TokenInfo
  refresh_token : PyVal

/-- `AuthorizationCode._set_token`: store the token in the cache and
retain its refresh token on the provider. -/
def AuthorizationCode._set_token (_st : ACState) (token_info : TokenInfo) : ACState :=
  { cache := some token_info, refresh_token := token_info.refresh_token }

/-- Result of one `get_access_token()` call in the sequential embedding:
the returned value (or raised exception), the provider state after the
call, and how many token-exchange network requests were performed. -/
structure CallResult (σ : Type) where
  result : Except PyExc PyVal
  state : σ
  networkCalls : Nat

/-- `ClientCredentials.get_access_token`, sequentially: read the cache and
return a fresh token immediately; otherwise take the lock, re-check the
cache (double-checked locking; in this single-caller embedding the second
read sees the same cache), and fetch.  The network fetch
(`self._fetch_token()`, including its internal retries) is abstracted as
the explicit `fetchToken` outcome. -/
def ClientCredentials.get_access_token (cache : Option TokenInfo) (skew_seconds : Int)
    (now : Rat) (fetchToken : Except PyExc TokenInfo) : CallResult (Option TokenInfo) :=
  let fresh : Option TokenInfo → Option PyVal := fun c =>
    match c with
    | some cached =>
      if !(cached.is_expired skew_seconds now) then some cached.access_token else Option.none
    | Option.none => Option.none
  match fresh cache with
  | some a => ⟨.ok a, cache, 0⟩
  | Option.none =>
    match fresh cache with
    | some a => ⟨.ok a, cache, 0⟩
    | Option.none =>
      match fetchToken with
      | .ok token_info => ⟨.ok token_info.access_token, some token_info, 1⟩
      | .error e => ⟨.error e, cache, 1⟩

/-- `AuthorizationCode.get_access_token`, sequentially.  The fast path
additionally requires a truthy (non-empty) `access_token`.  On the slow
path the refresh token is resolved as
`(cached.refresh_token if cached else None) or self._refresh_token`
(Python `or`: a falsy cached value, including the empty string, falls
back to the provider attribute); `None` means no token is available and
raises `AuthenticationError`; otherwise the refresh
(`self._refresh_access_token`, network) is abstracted as `refreshFn`
applied to the resolved value, and a successful refresh is stored via
`_set_token`. -/
def AuthorizationCode.get_access_token (st : ACState) (skew_seconds : Int) (now : Rat)
    (refreshFn : PyVal → Except PyExc TokenInfo) : CallResult ACState :=
  let fresh : Option TokenInfo → Option PyVal := fun c =>
    match c with
    | some cached =>
      if pyTruthy cached.access_token && !(cached.is_expired skew_seconds now) then
        some cached.access_token
      else Option.none
    | Option.none => Option.none
  match fresh st.cache with
  | some a => ⟨.ok a, st, 0⟩
  | Option.none =>
    match fresh st.cache with
    | some a => ⟨.ok a, st, 0⟩
    | Option.none =>
      let cachedRefresh : PyVal :=
        match st.cache with
        | some cached => cached.refresh_token
        | Option.none => PyVal.none
      let resolved : PyVal := if pyTruthy cachedRefresh then cachedRefresh else st.refresh_token
      match resolved with
      | .none =>
        ⟨.error (.spotify (.authenticationErr
            "No authorization token available. Call exchange_code() first."
            Option.none Option.none)), st, 0⟩
      | rt =>
        match refreshFn rt with
        | .ok token_info =>
          ⟨.ok token_info.access_token, AuthorizationCode._set_token st token_info, 1⟩
        | .error e => ⟨.error e, st, 1⟩

/-- `AsyncBaseClient._extract_error_message`: total, guarded by
`isinstance(data, dict)`, and wraps the message in `str()`. -/
def AsyncBaseClient._extract_error_message (data : PyVal) : String :=
  match data with
  | .dict xs =>
    match xs.lookup "error" with
    | some (.dict ys) => pyStr ((ys.lookup "message").getD (PyVal.str "Unknown error"))
    | some e => pyStr e
    | Option.none => "Unknown error"
  | _ => "Unknown error"

/-- Value of `int(response.headers.get("Retry-After", 1))`: the default
`1` when the header is absent, otherwise Python `int()` on the header
string (`Option.none` models the `ValueError` a non-integer header
raises). -/
def retryAfterValue : Option String → Option Int
  | Option.none => some 1
  | some s => pyIntOfString s

/-- `AsyncBaseClient._handle_response`: 204 short-circuits to `{}`; a 2xx
returns the parsed body (or `{}` when parsing failed); otherwise the
status code selects the exception, with 429 parsing `Retry-After`. -/
def AsyncBaseClient._handle_response (response : HttpResponse) : Except PyExc PyVal :=
  if response.status = 204 then .ok (PyVal.dict [])
  else
    let data := response.body.getD (PyVal.dict [])
    if isSuccessStatus response.status then .ok data
    else
      let error_message := AsyncBaseClient._extract_error_message data
      if response.status = 400 then
        .error (.spotify (.badRequest error_message (some response.status) (some data)))
      else if response.status = 401 then
        .error (.spotify (.authenticationErr error_message (some response.status) (some data)))
      else if response.status = 403 then
        .error (.spotify (.forbidden error_message (some response.status) (some data)))
      else if response.status = 404 then
        .error (.spotify (.notFound error_message (some response.status) (some data)))
      else if response.status = 429 then
        match retryAfterValue response.retryAfter with
        | some retry_after =>
          .error (.spotify (.rateLimit error_message (some response.status) (some data)
            retry_after))
        | Option.none => .error .valueError
      else if decide (500 ≤ response.status) then
        .error (.spotify (.server error_message (some response.status) (some data)))
      else
        .error (.spotify (.spotifyError error_message (some response.status) (some data)))

/-- Outcome of one HTTP attempt inside `AsyncBaseClient.request`: the
underlying `httpx` call either raises a connect/timeout error or yields a
response. -/
inductive Attempt where
  | connectError
  | timeoutError
  | response (r : HttpResponse)

/-- Result of one attempt after response handling. -/
def classifyAttempt : Attempt → Except PyExc PyVal
  | .connectError => .error .httpxConnect
  | .timeoutError => .error .httpxTimeout
  | .response r => AsyncBaseClient._handle_response r

/-- Exceptions that `AsyncBaseClient.request` catches and retries:
httpx connect/timeout errors, `RateLimitError` and `ServerError`. -/
def errRetryable : PyExc → Bool
  | .httpxConnect => true
  | .httpxTimeout => true
  | .spotify (.rateLimit _ _ _ _) => true
  | .spotify (.server _ _ _) => true
  | _ => false

/-- Attempt outcome that is an error `request` would retry. -/
def isRetryErr (x : Except PyExc PyVal) : Bool :=
  match x with
  | .error e => errRetryable e
  | .ok _ => false

/-- Error raised once retries are exhausted: connect/timeout errors are
wrapped into `SpotifyError("Connection error: ...")`, retryable library
errors are re-raised as they are. -/
def wrapExhausted : PyExc → PyExc
  | .httpxConnect => .spotify (.spotifyError "Connection error" Option.none Option.none)
  | .httpxTimeout => .spotify (.spotifyError "Connection error" Option.none Option.none)
  | e => e

/-- Attempt loop of `AsyncBaseClient.request`.  `attempt` is the loop
index of `for attempt in range(retries + 1)` and `remaining` maintains
`retries - attempt`, so `remaining > 0` is exactly the retry condition
`attempt < retries`.  The final `raise last_exception or SpotifyError(...)`
after the loop is unreachable for a natural retry count, because the last
iteration either returns or raises. -/
def requestAux (outcomes : Nat → Attempt) : Nat → Nat → Except PyExc PyVal × Nat
  | attempt, 0 =>
    (match classifyAttempt (outcomes attempt) with
      | .ok v => (.ok v, attempt + 1)
      | .error e =>
        if errRetryable e then (.error (wrapExhausted e), attempt + 1)
        else (.error e, attempt + 1))
  | attempt, r + 1 =>
    (match classifyAttempt (outcomes attempt) with
      | .ok v => (.ok v, attempt + 1)
      | .error e =>
        if errRetryable e then requestAux outcomes (attempt + 1) r
        else (.error e, attempt + 1))

/-- `AsyncBaseClient.request` over an explicit stream of attempt
outcomes: the result (value returned or exception raised) together with
the total number of attempts performed. -/
def AsyncBaseClient.request (outcomes : Nat → Attempt) (retries : Nat) :
    Except PyExc PyVal × Nat :=
  requestAux outcomes 0 retries

/-- Hex digit value for percent-decoding. -/
def hexVal (c : Char) : Option Nat :=
  if c.isDigit then some (c.toNat - 48)
  else if 'a' ≤ c && c ≤ 'f' then some (c.toNat - 87)
  else if 'A' ≤ c && c ≤ 'F' then some (c.toNat - 55)
  else Option.none

/-- Percent-decoding of `urllib.parse.unquote`, at character level: a
valid `%XX` pair becomes the character with code `XX`, an invalid escape
is left as literal text.  Python decodes at byte level and re-assembles
UTF-8 sequences; the two agree on ASCII escapes, and no verified property
uses non-ASCII escapes. -/
def pctDecode : List Char → List Char
  | '%' :: a :: b :: rest =>
    match hexVal a, hexVal b with
    | some ha, some hb => Char.ofNat (16 * ha + hb) :: pctDecode rest
    | _, _ => '%' :: pctDecode (a :: b :: rest)
  | c :: rest => c :: pctDecode rest
  | [] => []

/-- `unquote(x.replace('+', ' '))` as applied to each name and value in
`urllib.parse.parse_qsl`. -/
def unquotePlus (cs : List Char) : String :=
  String.mk (pctDecode (cs.map (fun c => if c == '+' then ' ' else c)))

/-- `urllib.parse.parse_qsl(qs, keep_blank_values=True)`: split on `&`,
skip empty chunks, split each chunk on the first `=` (a chunk without `=`
keeps a blank value), decode names and values. -/
def parse_qsl (qs : String) : List (String × String) :=
  (qs.toList.splitOn '&').foldr
    (fun chunk acc =>
      if chunk.isEmpty then acc
      else
        match splitFirstChar '=' chunk with
        | some (name, value) => (unquotePlus name, unquotePlus value) :: acc
        | Option.none => (unquotePlus chunk, unquotePlus []) :: acc)
    []

/-- Append a parsed pair into the grouped dict, preserving insertion
order and appending to an existing key's list. -/
def insertPair (acc : List (String × List String)) (k v : String) :
    List (String × List String) :=
  match acc with
  | [] => [(k, [v])]
  | (k', vs) :: rest =>
    if k' = k then (k', vs ++ [v]) :: rest else (k', vs) :: insertPair rest k v

/-- `urllib.parse.parse_qs(qs, keep_blank_values=True)`: parsed pairs
grouped into an ordered multi-dict. -/
def parse_qs (qs : String) : List (String × List String) :=
  (parse_qsl qs).foldl (fun acc p => insertPair acc p.1 p.2) []

/-- Module-level `_first_value(values, key)`: the first value for the
key, or `None` when the key is missing (or its list is empty, which
`parse_qs` never produces). -/
def _first_value (values : List (String × List String)) (key : String) : Option String :=
  match values.lookup key with
  | some (v :: _) => some v
  | _ => Option.none

/-- Query component of `urllib.parse.urlparse(url)`: the fragment (after
the first `#`) is removed first, then the query is everything after the
first `?`. -/
def extractQuery (url : String) : String :=
  let noFrag :=
    match splitFirstChar '#' url.toList with
    | some (pre, _) => pre
    | Option.none => url.toList
  match splitFirstChar '?' noFrag with
  | some (_, post) => String.mk post
  | Option.none => ""

/-- Query string that `AuthorizationCode.parse_response_url` actually
parses: `parsed.query if parsed.query else url`. -/
def effectiveQuery (url : String) : String :=
  let q := extractQuery url
  if q = "" then url else q

/-- `AuthorizationCode.parse_response_url(url, expected_state=...)`:
an `error` query parameter fails first (with optional
`error_description`), then a state mismatch against a supplied
`expected_state`, then a missing or empty `code`; otherwise the
authorization code is returned. -/
def AuthorizationCode.parse_response_url (url : String) (expected_state : Option String) :
    Except PyExc String :=
  let values := parse_qs (effectiveQuery url)
  match _first_value values "error" with
  | some error =>
    let error_description := _first_value values "error_description"
    let message :=
      match error_description with
      | some d =>
        if d != "" then "Authorization failed: " ++ error ++ " (" ++ d ++ ")"
        else "Authorization failed: " ++ error
      | Option.none => "Authorization failed: " ++ error
    .error (.spotify (.authenticationErr message Option.none
      (some (PyVal.dict
        [ ("error", PyVal.str error)
        , ("error_description", optStrToPy error_description)
        ]))))
  | Option.none =>
    let state := _first_value values "state"
    match expected_state with
    | some es =>
      if state ≠ some es then
        .error (.spotify (.authenticationErr "State mismatch in authorization response."
          Option.none
          (some (PyVal.dict
            [ ("expected_state", PyVal.str es)
            , ("state", optStrToPy state)
            ]))))
      else
        match _first_value values "code" with
        | some code =>
          if code = "" then
            .error (.spotify (.authenticationErr "Authorization response missing code."
              Option.none (some (PyVal.dict [("state", optStrToPy state)]))))
          else .ok code
        | Option.none =>
          .error (.spotify (.authenticationErr "Authorization response missing code."
            Option.none (some (PyVal.dict [("state", optStrToPy state)]))))
    | Option.none =>
      match _first_value values "code" with
      | some code =>
        if code = "" then
          .error (.spotify (.authenticationErr "Authorization response missing code."
            Option.none (some (PyVal.dict [("state", optStrToPy state)]))))
        else .ok code
      | Option.none =>
        .error (.spotify (.authenticationErr "Authorization response missing code."
          Option.none (some (PyVal.dict [("state", optStrToPy state)]))))

/-- Tail of `authorize_local` after the callback is captured: parse the
callback URL, then (only on success) exchange the code via the token
endpoint, abstracted as `exchange`. -/
def exchangeCodeFromCallback (callback : String) (expected_state : Option String)
    (exchange : String → Except PyExc TokenInfo) : Except PyExc TokenInfo :=
  match AuthorizationCode.parse_response_url callback expected_state with
  | .error e => .error e
  | .ok code => exchange code

/-- Is the value a Python `str` (`isinstance(v, str)`)? -/
def isPyStr : PyVal → Bool
  | .str _ => true
  | _ => false

/-- Does the computation raise an `AuthenticationError`? -/
def raisesAuthentication {α : Type} : Except PyExc α → Bool
  | .error e => isAuthenticationError e
  | .ok _ => false

/-- C8: for every `TokenInfo`, every skew value and every current time
`now`, `is_expired(skew)` returns true if and only if
`now >= expires_at - skew`. -/
theorem C8_is_expired_iff (t : TokenInfo) (skew : Int) (now : Rat) :
    t.is_expired skew now = true ↔ now ≥ t.expires_at - (skew : Rat) := by
  simp [TokenInfo.is_expired, ge_iff_le]

/-- C7: for every `TokenInfo` whose fields respect the dataclass
annotations (string access token, optional-string refresh token and
scope), writing it with `FileTokenCache.set` and reading the written
payload back with `FileTokenCache.get` returns an equal value in all four
fields. -/
theorem C7_file_cache_round_trip (t : TokenInfo)
    (ha : ∃ a, t.access_token = PyVal.str a)
    (hr : t.refresh_token = PyVal.none ∨ ∃ r, t.refresh_token = PyVal.str r)
    (hs : t.scope = PyVal.none ∨ ∃ s, t.scope = PyVal.str s) :
    FileTokenCache.get (.json (FileTokenCache.set t)) = .ok (some t) := by
  obtain ⟨a, e, rt, sc⟩ := t
  obtain ⟨a', ha⟩ := ha
  simp only [TokenInfo.mk.injEq] at ha ⊢
  subst ha
  rcases hr with hr | ⟨r', hr⟩ <;> rcases hs with hs | ⟨s', hs⟩ <;>
    (subst hr; subst hs; rfl)

/-- C7 witness: the specification's example token round-trips. -/
theorem C7_file_cache_round_trip_witness :
    FileTokenCache.get (.json (FileTokenCache.set
        ⟨PyVal.str "a", 1700000000, PyVal.str "r", PyVal.str "s"⟩))
      = .ok (some ⟨PyVal.str "a", 1700000000, PyVal.str "r", PyVal.str "s"⟩) :=
  C7_file_cache_round_trip _ ⟨"a", rfl⟩ (Or.inr ⟨"r", rfl⟩) (Or.inr ⟨"s", rfl⟩)

/-- C6 counterexample: a file whose contents are valid JSON but not a JSON
object (here the empty array `[]`) makes `FileTokenCache.get` raise
`AttributeError` (from `payload.get` on a list) instead of returning
`None`, so `get` is not total over every read outcome. -/
theorem C6_nonobject_payload_counterexample :
    FileTokenCache.get (.json (PyVal.list [])) = .error PyExc.attributeError := rfl

/-- C6 amended: `FileTokenCache.get` returns `None` for a missing file,
an unreadable file and malformed JSON, and, for every JSON-object
payload, returns `None` when `access_token` is not a string or
`expires_at` is not float-coercible, while wrong-typed optional fields
are individually replaced by absent in a successful load.  (A payload of
valid JSON that is not an object instead raises `AttributeError`.) -/
theorem C6_file_cache_get_amended (xs : List (String × PyVal)) :
    (FileTokenCache.get .missing = .ok Option.none ∧
     FileTokenCache.get .readError = .ok Option.none ∧
     FileTokenCache.get .badJson = .ok Option.none) ∧
    (isPyStr ((xs.lookup "access_token").getD PyVal.none) = false →
       FileTokenCache.get (.json (PyVal.dict xs)) = .ok Option.none) ∧
    (∀ a, (xs.lookup "access_token").getD PyVal.none = PyVal.str a →
       pyFloat ((xs.lookup "expires_at").getD PyVal.none) = Option.none →
       FileTokenCache.get (.json (PyVal.dict xs)) = .ok Option.none) ∧
    (∀ a q, (xs.lookup "access_token").getD PyVal.none = PyVal.str a →
       pyFloat ((xs.lookup "expires_at").getD PyVal.none) = some q →
       FileTokenCache.get (.json (PyVal.dict xs)) =
         .ok (some ⟨PyVal.str a, q,
           keepIfStr ((xs.lookup "refresh_token").getD PyVal.none),
           keepIfStr ((xs.lookup "scope").getD PyVal.none)⟩)) := by
  refine ⟨⟨rfl, rfl, rfl⟩, ?_, ?_, ?_⟩
  · intro hstr
    cases hv : (xs.lookup "access_token").getD PyVal.none <;>
      simp [FileTokenCache.get, hv]
    simp [hv, isPyStr] at hstr
  · intro a ha hq
    simp [FileTokenCache.get, ha, hq]
  · intro a q ha hq
    simp [FileTokenCache.get, ha, hq]

/-- C6 witness: the specification's `{"access_token": "token-only"}`
payload (no `expires_at`) is a cache miss, via the amended theorem. -/
theorem C6_file_cache_get_amended_witness :
    FileTokenCache.get (.json (PyVal.dict [("access_token", PyVal.str "token-only")]))
      = .ok Option.none :=
  (C6_file_cache_get_amended [("access_token", PyVal.str "token-only")]).2.2.1
    "token-only" rfl rfl

/-- C3: for every provider whose cache holds a valid non-expired token,
`get_access_token()` returns the cached `access_token`, performs no
token-exchange network call and leaves the provider state unchanged, so a
repeated call returns the same string.  For `ClientCredentials` validity
is just non-expiry; `AuthorizationCode` additionally requires a truthy
(non-empty) `access_token` on its fast path. -/
theorem C3_cached_fast_path (t : TokenInfo) (skew : Int) (now : Rat)
    (fetchToken : Except PyExc TokenInfo)
    (refreshFn : PyVal → Except PyExc TokenInfo) (rtf : PyVal)
    (hfresh : t.is_expired skew now = false) :
    ClientCredentials.get_access_token (some t) skew now fetchToken
      = ⟨.ok t.access_token, some t, 0⟩ ∧
    ClientCredentials.get_access_token
        (ClientCredentials.get_access_token (some t) skew now fetchToken).state
        skew now fetchToken
      = ⟨.ok t.access_token, some t, 0⟩ ∧
    (pyTruthy t.access_token = true →
      AuthorizationCode.get_access_token ⟨some t, rtf⟩ skew now refreshFn
        = ⟨.ok t.access_token, ⟨some t, rtf⟩, 0⟩ ∧
      AuthorizationCode.get_access_token
          (AuthorizationCode.get_access_token ⟨some t, rtf⟩ skew now refreshFn).state
          skew now refreshFn
        = ⟨.ok t.access_token, ⟨some t, rtf⟩, 0⟩) := by
  have hcc : ClientCredentials.get_access_token (some t) skew now fetchToken
      = ⟨.ok t.access_token, some t, 0⟩ := by
    simp [ClientCredentials.get_access_token, hfresh]
  refine ⟨hcc, by rw [hcc]; exact hcc, ?_⟩
  intro htruthy
  have hac : AuthorizationCode.get_access_token ⟨some t, rtf⟩ skew now refreshFn
      = ⟨.ok t.access_token, ⟨some t, rtf⟩, 0⟩ := by
    simp [AuthorizationCode.get_access_token, hfresh, htruthy]
  exact ⟨hac, by rw [hac]; exact hac⟩

/-- C3 witness: a concrete unexpired cached token is returned untouched
by both providers, twice. -/
theorem C3_cached_fast_path_witness :
    ClientCredentials.get_access_token (some ⟨PyVal.str "A", 1000, PyVal.none, PyVal.none⟩)
        30 0 (.error PyExc.httpxConnect)
      = ⟨.ok (PyVal.str "A"), some ⟨PyVal.str "A", 1000, PyVal.none, PyVal.none⟩, 0⟩ ∧
    AuthorizationCode.get_access_token
        ⟨some ⟨PyVal.str "A", 1000, PyVal.none, PyVal.none⟩, PyVal.none⟩
        30 0 (fun _ => .error PyExc.httpxConnect)
      = ⟨.ok (PyVal.str "A"),
         ⟨some ⟨PyVal.str "A", 1000, PyVal.none, PyVal.none⟩, PyVal.none⟩, 0⟩ := by
  have h := C3_cached_fast_path ⟨PyVal.str "A", 1000, PyVal.none, PyVal.none⟩ 30 0
    (.error PyExc.httpxConnect) (fun _ => .error PyExc.httpxConnect) PyVal.none
    (by simp [TokenInfo.is_expired]; norm_num)
  exact ⟨h.1, (h.2.2 rfl).1⟩

/-- C9: an unexpired cached token whose `access_token` is the empty
string fails the truthiness test on `AuthorizationCode.get_access_token`'s
fast path, so the call takes the refresh path: with no refresh token
available anywhere it raises `AuthenticationError` without any network
call, and with a provider-held refresh token it performs the refresh
(one token-exchange network call) instead of returning the empty
string. -/
theorem C9_empty_access_token_stale (expiry : Rat) (skew : Int) (now : Rat)
    (scope : PyVal) (R : String) (refreshFn : PyVal → Except PyExc TokenInfo)
    (_hfresh : TokenInfo.is_expired ⟨PyVal.str "", expiry, PyVal.none, scope⟩ skew now = false) :
    AuthorizationCode.get_access_token
        ⟨some ⟨PyVal.str "", expiry, PyVal.none, scope⟩, PyVal.none⟩ skew now refreshFn
      = ⟨.error (.spotify (.authenticationErr
            "No authorization token available. Call exchange_code() first."
            Option.none Option.none)),
         ⟨some ⟨PyVal.str "", expiry, PyVal.none, scope⟩, PyVal.none⟩, 0⟩ ∧
    (AuthorizationCode.get_access_token
        ⟨some ⟨PyVal.str "", expiry, PyVal.none, scope⟩, PyVal.str R⟩ skew now
        refreshFn).networkCalls = 1 := by
  constructor
  · simp [AuthorizationCode.get_access_token, pyTruthy]
  · cases hr : refreshFn (PyVal.str R) <;>
      simp [AuthorizationCode.get_access_token, pyTruthy, hr]

/-- C9 witness: concrete instance with an unexpired empty-string token
and no refresh token anywhere, and with a provider refresh token. -/
theorem C9_empty_access_token_stale_witness :
    AuthorizationCode.get_access_token
        ⟨some ⟨PyVal.str "", 1000, PyVal.none, PyVal.none⟩, PyVal.none⟩ 30 0
        (fun _ => .error PyExc.httpxConnect)
      = ⟨.error (.spotify (.authenticationErr
            "No authorization token available. Call exchange_code() first."
            Option.none Option.none)),
         ⟨some ⟨PyVal.str "", 1000, PyVal.none, PyVal.none⟩, PyVal.none⟩, 0⟩ ∧
    (AuthorizationCode.get_access_token
        ⟨some ⟨PyVal.str "", 1000, PyVal.none, PyVal.none⟩, PyVal.str "R1"⟩ 30 0
        (fun _ => .error PyExc.httpxConnect)).networkCalls = 1 :=
  C9_empty_access_token_stale 1000 30 0 PyVal.none "R1"
    (fun _ => .error PyExc.httpxConnect)
    (by simp [TokenInfo.is_expired]; norm_num)

/-- C1: for every refresh token string `R` being used and every successful
refresh response (2xx, with `access_token` and a float-coercible
`expires_in`), the `TokenInfo` produced by
`AuthorizationCode._refresh_access_token` and written by `_set_token`
carries `R` as its refresh token when the response body omits the
`refresh_token` key, and carries the supplied value when the body
contains the key; `_set_token` stores the same value as the provider's
retained refresh token. -/
theorem C1_refresh_token_retention (now : Rat) (self_scope : PyVal) (st : ACState)
    (R : String) (status : Nat) (ra : Option String) (xs : List (String × PyVal)) (q : Rat)
    (hs : isSuccessStatus status = true)
    (hat : PyVal.isNone ((xs.lookup "access_token").getD PyVal.none) = false)
    (hq : pyFloat ((xs.lookup "expires_in").getD PyVal.none) = some q) :
    (xs.lookup "refresh_token" = Option.none →
      ∃ tok, AuthorizationCode._refresh_access_token now self_scope R
          ⟨status, ra, some (PyVal.dict xs)⟩ = .ok tok ∧
        tok.refresh_token = PyVal.str R ∧
        AuthorizationCode._set_token st tok
          = { cache := some tok, refresh_token := PyVal.str R }) ∧
    (∀ v, xs.lookup "refresh_token" = some v →
      ∃ tok, AuthorizationCode._refresh_access_token now self_scope R
          ⟨status, ra, some (PyVal.dict xs)⟩ = .ok tok ∧
        tok.refresh_token = v ∧
        AuthorizationCode._set_token st tok
          = { cache := some tok, refresh_token := v }) := by
  have hei : PyVal.isNone ((xs.lookup "expires_in").getD PyVal.none) = false := by
    cases hv : (xs.lookup "expires_in").getD PyVal.none <;> simp_all [pyFloat, PyVal.isNone]
  constructor
  · intro habsent
    refine ⟨⟨(xs.lookup "access_token").getD PyVal.none, now + q, PyVal.str R,
      (xs.lookup "scope").getD self_scope⟩, ?_, rfl, rfl⟩
    simp [AuthorizationCode._refresh_access_token, AuthorizationCode._handle_response,
      pyGet, pyGetD, hs, hat, hei, hq, habsent]
  · intro v hpresent
    refine ⟨⟨(xs.lookup "access_token").getD PyVal.none, now + q, v,
      (xs.lookup "scope").getD self_scope⟩, ?_, rfl, rfl⟩
    simp [AuthorizationCode._refresh_access_token, AuthorizationCode._handle_response,
      pyGet, pyGetD, hs, hat, hei, hq, hpresent]

/-- C1 witness: `R1` is retained when the refresh response omits
`refresh_token`, and `R2` replaces it when supplied, at a concrete state
and response. -/
theorem C1_refresh_token_retention_witness :
    (∃ tok, AuthorizationCode._refresh_access_token 0 PyVal.none "R1"
        ⟨200, Option.none,
         some (PyVal.dict [("access_token", PyVal.str "A"), ("expires_in", PyVal.num 3600)])⟩
        = .ok tok ∧
      tok.refresh_token = PyVal.str "R1" ∧
      AuthorizationCode._set_token ⟨Option.none, PyVal.none⟩ tok
        = { cache := some tok, refresh_token := PyVal.str "R1" }) ∧
    (∃ tok, AuthorizationCode._refresh_access_token 0 PyVal.none "R1"
        ⟨200, Option.none,
         some (PyVal.dict [("access_token", PyVal.str "A"), ("expires_in", PyVal.num 3600),
           ("refresh_token", PyVal.str "R2")])⟩
        = .ok tok ∧
      tok.refresh_token = PyVal.str "R2" ∧
      AuthorizationCode._set_token ⟨Option.none, PyVal.none⟩ tok
        = { cache := some tok, refresh_token := PyVal.str "R2" }) :=
  ⟨(C1_refresh_token_retention 0 PyVal.none ⟨Option.none, PyVal.none⟩ "R1" 200 Option.none
      [("access_token", PyVal.str "A"), ("expires_in", PyVal.num 3600)] 3600
      rfl rfl rfl).1 rfl,
   (C1_refresh_token_retention 0 PyVal.none ⟨Option.none, PyVal.none⟩ "R1" 200 Option.none
      [("access_token", PyVal.str "A"), ("expires_in", PyVal.num 3600),
        ("refresh_token", PyVal.str "R2")] 3600
      rfl rfl rfl).2 (PyVal.str "R2") rfl⟩

/-- C10: a successful refresh response that contains the key
`refresh_token` with an explicit JSON `null` makes
`data.get("refresh_token", fallback)` return `None` (the key is present,
so the fallback is not used): the stored `TokenInfo` has no refresh token
and `_set_token` sets the provider's retained refresh token to `None`,
discarding the prior one — unlike the omitted-key case. -/
theorem C10_null_refresh_token_discarded (now : Rat) (self_scope : PyVal) (st : ACState)
    (R : String) (status : Nat) (ra : Option String) (xs : List (String × PyVal)) (q : Rat)
    (hs : isSuccessStatus status = true)
    (hat : PyVal.isNone ((xs.lookup "access_token").getD PyVal.none) = false)
    (hq : pyFloat ((xs.lookup "expires_in").getD PyVal.none) = some q)
    (hnull : xs.lookup "refresh_token" = some PyVal.none) :
    ∃ tok, AuthorizationCode._refresh_access_token now self_scope R
        ⟨status, ra, some (PyVal.dict xs)⟩ = .ok tok ∧
      tok.refresh_token = PyVal.none ∧
      AuthorizationCode._set_token st tok
        = { cache := some tok, refresh_token := PyVal.none } := by
  have hei : PyVal.isNone ((xs.lookup "expires_in").getD PyVal.none) = false := by
    cases hv : (xs.lookup "expires_in").getD PyVal.none <;> simp_all [pyFloat, PyVal.isNone]
  refine ⟨⟨(xs.lookup "access_token").getD PyVal.none, now + q, PyVal.none,
    (xs.lookup "scope").getD self_scope⟩, ?_, rfl, rfl⟩
  simp [AuthorizationCode._refresh_access_token, AuthorizationCode._handle_response,
    pyGet, pyGetD, hs, hat, hei, hq, hnull]

/-- C10 witness: concrete refresh response carrying
`"refresh_token": null`. -/
theorem C10_null_refresh_token_discarded_witness :
    ∃ tok, AuthorizationCode._refresh_access_token 0 PyVal.none "R1"
        ⟨200, Option.none,
         some (PyVal.dict [("access_token", PyVal.str "A"), ("expires_in", PyVal.num 3600),
           ("refresh_token", PyVal.none)])⟩
        = .ok tok ∧
      tok.refresh_token = PyVal.none ∧
      AuthorizationCode._set_token ⟨some ⟨PyVal.str "old", 0, PyVal.str "R1", PyVal.none⟩,
          PyVal.str "R1"⟩ tok
        = { cache := some tok, refresh_token := PyVal.none } :=
  C10_null_refresh_token_discarded 0 PyVal.none
    ⟨some ⟨PyVal.str "old", 0, PyVal.str "R1", PyVal.none⟩, PyVal.str "R1"⟩ "R1" 200
    Option.none
    [("access_token", PyVal.str "A"), ("expires_in", PyVal.num 3600),
      ("refresh_token", PyVal.none)] 3600 rfl rfl rfl rfl

/-- C5: for every callback URL, an `error` query parameter raises an
`AuthenticationError` for any expected state (state and code are not
consulted); otherwise a `state` different from the expected one raises an
`AuthenticationError` whose value is fixed by the parse alone, so the
token exchange that `authorize_local` would run afterwards is never
invoked; otherwise a missing or empty `code` raises an
`AuthenticationError`; otherwise the code is returned. -/
theorem C5_parse_response_url_cases (url : String) (es : String)
    (exchange : String → Except PyExc TokenInfo) :
    (∀ e (est : Option String),
      _first_value (parse_qs (effectiveQuery url)) "error" = some e →
      raisesAuthentication (AuthorizationCode.parse_response_url url est) = true) ∧
    (_first_value (parse_qs (effectiveQuery url)) "error" = Option.none →
      _first_value (parse_qs (effectiveQuery url)) "state" ≠ some es →
      raisesAuthentication (AuthorizationCode.parse_response_url url (some es)) = true ∧
      ∃ x, AuthorizationCode.parse_response_url url (some es) = .error x ∧
        exchangeCodeFromCallback url (some es) exchange = .error x) ∧
    (_first_value (parse_qs (effectiveQuery url)) "error" = Option.none →
      _first_value (parse_qs (effectiveQuery url)) "state" = some es →
      (_first_value (parse_qs (effectiveQuery url)) "code" = Option.none ∨
       _first_value (parse_qs (effectiveQuery url)) "code" = some "") →
      raisesAuthentication (AuthorizationCode.parse_response_url url (some es)) = true) ∧
    (∀ c, _first_value (parse_qs (effectiveQuery url)) "error" = Option.none →
      _first_value (parse_qs (effectiveQuery url)) "state" = some es →
      _first_value (parse_qs (effectiveQuery url)) "code" = some c → c ≠ "" →
      AuthorizationCode.parse_response_url url (some es) = .ok c) := by
  refine ⟨?_, ?_, ?_, ?_⟩
  · intro e est herr
    cases hd : _first_value (parse_qs (effectiveQuery url)) "error_description" <;>
      simp [AuthorizationCode.parse_response_url, herr, hd, raisesAuthentication,
        isAuthenticationError]
  · intro herr hstate
    constructor
    · simp [AuthorizationCode.parse_response_url, herr, hstate, raisesAuthentication,
        isAuthenticationError]
    · refine ⟨.spotify (.authenticationErr "State mismatch in authorization response."
        Option.none (some (PyVal.dict
          [ ("expected_state", PyVal.str es)
          , ("state", optStrToPy (_first_value (parse_qs (effectiveQuery url)) "state"))
          ]))), ?_, ?_⟩ <;>
        simp [AuthorizationCode.parse_response_url, exchangeCodeFromCallback, herr, hstate]
  · intro herr hstate hcode
    rcases hcode with hcode | hcode <;>
      simp [AuthorizationCode.parse_response_url, herr, hstate, hcode,
        raisesAuthentication, isAuthenticationError]
  · intro c herr hstate hcode hne
    simp [AuthorizationCode.parse_response_url, herr, hstate, hcode, hne]

/-- C5 witness: a concrete state-mismatch callback raises an
`AuthenticationError` and the exchange function is never consulted
(the composed flow returns the same parse error). -/
theorem C5_parse_response_url_cases_witness :
    raisesAuthentication (AuthorizationCode.parse_response_url
        "http://127.0.0.1:8080/callback?code=abc&state=wrong" (some "ok")) = true ∧
    ∃ x, AuthorizationCode.parse_response_url
        "http://127.0.0.1:8080/callback?code=abc&state=wrong" (some "ok") = .error x ∧
      exchangeCodeFromCallback "http://127.0.0.1:8080/callback?code=abc&state=wrong"
        (some "ok") (fun _ => .ok ⟨PyVal.str "T", 0, PyVal.none, PyVal.none⟩) = .error x :=
  (C5_parse_response_url_cases "http://127.0.0.1:8080/callback?code=abc&state=wrong" "ok"
      (fun _ => .ok ⟨PyVal.str "T", 0, PyVal.none, PyVal.none⟩)).2.1 rfl (by decide)

/-- C4 counterexample: a 429 response whose `Retry-After` header is not
an integer literal (here `"x"`) makes
`int(response.headers.get("Retry-After", 1))` raise `ValueError`, so the
error raised is a `ValueError`, not a `RateLimitError` — the claimed
status-determined mapping does not hold for every non-2xx response. -/
theorem C4_unparseable_retry_after_counterexample :
    AsyncBaseClient._handle_response ⟨429, some "x", some (PyVal.dict [])⟩
      = .error PyExc.valueError := rfl

/-- C4 amended: for every non-2xx response the raised error is determined
by the status code — `BadRequestError` for 400, `AuthenticationError` for
401, `ForbiddenError` for 403, `NotFoundError` for 404, `RateLimitError`
for 429 carrying `retry_after` parsed from the `Retry-After` header
(default 1 when the header is absent) provided that parse succeeds,
`ServerError` for every status ≥ 500, and a generic `SpotifyError`
otherwise — each carrying the status code and the parsed body, with the
message extracted from an `{error: {message}}` or `{error: <string>}`
shape and falling back to `"Unknown error"`. -/
theorem C4_status_mapping_amended (r : HttpResponse)
    (h : isSuccessStatus r.status = false) :
    (r.status = 400 →
      AsyncBaseClient._handle_response r = .error (.spotify (.badRequest
        (AsyncBaseClient._extract_error_message (r.body.getD (PyVal.dict [])))
        (some r.status) (some (r.body.getD (PyVal.dict [])))))) ∧
    (r.status = 401 →
      AsyncBaseClient._handle_response r = .error (.spotify (.authenticationErr
        (AsyncBaseClient._extract_error_message (r.body.getD (PyVal.dict [])))
        (some r.status) (some (r.body.getD (PyVal.dict [])))))) ∧
    (r.status = 403 →
      AsyncBaseClient._handle_response r = .error (.spotify (.forbidden
        (AsyncBaseClient._extract_error_message (r.body.getD (PyVal.dict [])))
        (some r.status) (some (r.body.getD (PyVal.dict [])))))) ∧
    (r.status = 404 →
      AsyncBaseClient._handle_response r = .error (.spotify (.notFound
        (AsyncBaseClient._extract_error_message (r.body.getD (PyVal.dict [])))
        (some r.status) (some (r.body.getD (PyVal.dict [])))))) ∧
    (∀ n, r.status = 429 → retryAfterValue r.retryAfter = some n →
      AsyncBaseClient._handle_response r = .error (.spotify (.rateLimit
        (AsyncBaseClient._extract_error_message (r.body.getD (PyVal.dict [])))
        (some r.status) (some (r.body.getD (PyVal.dict []))) n))) ∧
    (retryAfterValue Option.none = some 1) ∧
    (500 ≤ r.status →
      AsyncBaseClient._handle_response r = .error (.spotify (.server
        (AsyncBaseClient._extract_error_message (r.body.getD (PyVal.dict [])))
        (some r.status) (some (r.body.getD (PyVal.dict [])))))) ∧
    (r.status ≠ 400 → r.status ≠ 401 → r.status ≠ 403 → r.status ≠ 404 →
      r.status ≠ 429 → r.status < 500 →
      AsyncBaseClient._handle_response r = .error (.spotify (.spotifyError
        (AsyncBaseClient._extract_error_message (r.body.getD (PyVal.dict [])))
        (some r.status) (some (r.body.getD (PyVal.dict [])))))) ∧
    (∀ xs ys m, r.body.getD (PyVal.dict []) = PyVal.dict xs →
      xs.lookup "error" = some (PyVal.dict ys) →
      ys.lookup "message" = some (PyVal.str m) →
      AsyncBaseClient._extract_error_message (r.body.getD (PyVal.dict [])) = m) ∧
    (∀ xs msg, r.body.getD (PyVal.dict []) = PyVal.dict xs →
      xs.lookup "error" = some (PyVal.str msg) →
      AsyncBaseClient._extract_error_message (r.body.getD (PyVal.dict [])) = msg) ∧
    (∀ xs, r.body.getD (PyVal.dict []) = PyVal.dict xs →
      xs.lookup "error" = Option.none →
      AsyncBaseClient._extract_error_message (r.body.getD (PyVal.dict [])) = "Unknown error") := by
  have hns : ¬ (200 ≤ r.status ∧ r.status < 300) := by
    simpa [isSuccessStatus] using h
  refine ⟨?_, ?_, ?_, ?_, ?_, rfl, ?_, ?_, ?_, ?_, ?_⟩
  · intro h400
    have h204 : r.status ≠ 204 := by omega
    simp [AsyncBaseClient._handle_response, isSuccessStatus, h204, h400]
  · intro h401
    have h204 : r.status ≠ 204 := by omega
    have : r.status ≠ 400 := by omega
    simp [AsyncBaseClient._handle_response, isSuccessStatus, h204, h401]
  · intro h403
    have h204 : r.status ≠ 204 := by omega
    simp [AsyncBaseClient._handle_response, isSuccessStatus, h204, h403]
  · intro h404
    have h204 : r.status ≠ 204 := by omega
    simp [AsyncBaseClient._handle_response, isSuccessStatus, h204, h404]
  · intro n h429 hra
    have h204 : r.status ≠ 204 := by omega
    simp [AsyncBaseClient._handle_response, isSuccessStatus, h204, h429, hra]
  · intro h5
    have h204 : r.status ≠ 204 := by omega
    have h400 : r.status ≠ 400 := by omega
    have h401 : r.status ≠ 401 := by omega
    have h403 : r.status ≠ 403 := by omega
    have h404 : r.status ≠ 404 := by omega
    have h429 : r.status ≠ 429 := by omega
    simp [AsyncBaseClient._handle_response, h204, h, h400, h401, h403, h404, h429, h5]
  · intro h400 h401 h403 h404 h429 h5
    have h204 : r.status ≠ 204 := by omega
    have h5' : ¬ (500 ≤ r.status) := by omega
    simp [AsyncBaseClient._handle_response, h204, h, h400, h401, h403, h404, h429, h5']
  · intro xs ys m hdata herr hmsg
    simp [AsyncBaseClient._extract_error_message, hdata, herr, hmsg, pyStr]
  · intro xs msg hdata herr
    simp [AsyncBaseClient._extract_error_message, hdata, herr, pyStr]
  · intro xs hdata herr
    simp [AsyncBaseClient._extract_error_message, hdata, herr]

/-- C4 amended witness: concrete instances of the 404 mapping with an
`{error: {message}}` body and of the 429 mapping with `Retry-After: 2`. -/
theorem C4_status_mapping_amended_witness :
    AsyncBaseClient._handle_response
        ⟨404, Option.none,
         some (PyVal.dict [("error", PyVal.dict [("message", PyVal.str "Album not found")])])⟩
      = .error (.spotify (.notFound "Album not found" (some 404)
          (some (PyVal.dict [("error", PyVal.dict [("message", PyVal.str "Album not found")])])))) ∧
    AsyncBaseClient._handle_response ⟨429, some "2", some (PyVal.dict [])⟩
      = .error (.spotify (.rateLimit "Unknown error" (some 429) (some (PyVal.dict [])) 2)) := by
  constructor
  · have h := (C4_status_mapping_amended
      ⟨404, Option.none,
       some (PyVal.dict [("error", PyVal.dict [("message", PyVal.str "Album not found")])])⟩
      rfl).2.2.2.1 rfl
    have hm := (C4_status_mapping_amended
      ⟨404, Option.none,
       some (PyVal.dict [("error", PyVal.dict [("message", PyVal.str "Album not found")])])⟩
      rfl).2.2.2.2.2.2.2.2.1
      [("error", PyVal.dict [("message", PyVal.str "Album not found")])]
      [("message", PyVal.str "Album not found")] "Album not found" rfl rfl rfl
    rw [hm] at h
    exact h
  · exact (C4_status_mapping_amended ⟨429, some "2", some (PyVal.dict [])⟩ rfl).2.2.2.2.1
      2 rfl rfl

/-- Helper for the retry loop: as long as every earlier attempt produced
a retryable error, the loop reaches attempt `attempt + k` with `k` fewer
retries remaining. -/
theorem requestAux_skip (outcomes : Nat → Attempt) :
    ∀ (k attempt remaining : Nat), k ≤ remaining →
      (∀ i, i < k → isRetryErr (classifyAttempt (outcomes (attempt + i))) = true) →
      requestAux outcomes attempt remaining
        = requestAux outcomes (attempt + k) (remaining - k) := by
  intro k
  induction k with
  | zero => intro attempt remaining _ _; simp
  | succ k ih =>
    intro attempt remaining hk hall
    obtain ⟨r, rfl⟩ : ∃ r, remaining = r + 1 := ⟨remaining - 1, by omega⟩
    have h0 : isRetryErr (classifyAttempt (outcomes attempt)) = true := by
      simpa using hall 0 (by omega)
    cases hclass : classifyAttempt (outcomes attempt) with
    | ok v => rw [hclass] at h0; simp [isRetryErr] at h0
    | error e =>
      rw [hclass] at h0
      have hretry : errRetryable e = true := by simpa [isRetryErr] using h0
      have hstep : requestAux outcomes attempt (r + 1)
          = requestAux outcomes (attempt + 1) r := by
        simp [requestAux, hclass, hretry]
      rw [hstep, ih (attempt + 1) r (by omega)
        (fun i hi => by
          have := hall (i + 1) (by omega)
          simpa [Nat.add_assoc, Nat.add_comm 1 i] using this)]
      congr 1
      · omega
      · omega

/-- C2: over every stream of attempt outcomes, retryable errors (connect
and timeout errors, `RateLimitError` from a 429, `ServerError` from a
5xx) are retried until `retries` additional attempts beyond the first
have been used, after which the last such error is raised (connect and
timeout errors being wrapped into `SpotifyError("Connection error")` at
exhaustion, as the code does); a success or a non-retryable error at
attempt `k` ends the loop at exactly `k + 1` attempts with zero further
retries.  In particular `maxRetries = 1` against two consecutive 500
responses performs exactly 2 attempts and raises the `ServerError`. -/
theorem C2_retry_policy (outcomes : Nat → Attempt) (retries k : Nat) :
    (k ≤ retries →
      (∀ i, i < k → isRetryErr (classifyAttempt (outcomes i)) = true) →
      (∀ v, classifyAttempt (outcomes k) = .ok v →
        AsyncBaseClient.request outcomes retries = (.ok v, k + 1)) ∧
      (∀ e, classifyAttempt (outcomes k) = .error e → errRetryable e = false →
        AsyncBaseClient.request outcomes retries = (.error e, k + 1))) ∧
    ((∀ i, i ≤ retries → isRetryErr (classifyAttempt (outcomes i)) = true) →
      ∀ e, classifyAttempt (outcomes retries) = .error e →
        AsyncBaseClient.request outcomes retries
          = (.error (wrapExhausted e), retries + 1)) ∧
    (AsyncBaseClient.request (fun _ => Attempt.response ⟨500, Option.none, Option.none⟩) 1
      = (.error (.spotify (.server "Unknown error" (some 500) (some (PyVal.dict [])))), 2)) := by
  refine ⟨?_, ?_, rfl⟩
  · intro hk hall
    have hreach : AsyncBaseClient.request outcomes retries
        = requestAux outcomes k (retries - k) := by
      have := requestAux_skip outcomes k 0 retries hk
        (fun i hi => by simpa using hall i hi)
      simpa [AsyncBaseClient.request] using this
    constructor
    · intro v hok
      rw [hreach]
      cases hrem : retries - k <;> simp [requestAux, hok]
    · intro e herr hnr
      rw [hreach]
      cases hrem : retries - k <;> simp [requestAux, herr, hnr]
  · intro hall e herr
    have hreach : AsyncBaseClient.request outcomes retries
        = requestAux outcomes retries 0 := by
      have := requestAux_skip outcomes retries 0 retries (Nat.le_refl retries)
        (fun i hi => by simpa using hall i (by omega))
      simpa [AsyncBaseClient.request] using this
    have hretry : errRetryable e = true := by
      have := hall retries (Nat.le_refl retries)
      rw [herr] at this
      simpa [isRetryErr] using this
    rw [hreach]
    simp [requestAux, herr, hretry]

/-- C2 witness: a 404 response on the very first attempt is raised with
zero retries even though three retries were allowed, via the theorem. -/
theorem C2_retry_policy_witness :
    AsyncBaseClient.request (fun _ => Attempt.response ⟨404, Option.none, Option.none⟩) 3
      = (.error (.spotify (.notFound "Unknown error" (some 404) (some (PyVal.dict [])))), 1) :=
  ((C2_retry_policy (fun _ => Attempt.response ⟨404, Option.none, Option.none⟩) 3 0).1
    (by omega) (fun i hi => absurd hi (Nat.not_lt_zero i))).2
    (.spotify (.notFound "Unknown error" (some 404) (some (PyVal.dict [])))) rfl rfl
